import Mathlib

/-!
Verification development for `docspec_python.namespace_packages`.

The Python module is shallowly embedded here.  Python strings are modelled as
`List Char` (a Python `str` is a sequence of code points); `pathlib` relative
paths are modelled by their `parts` tuple, i.e. a `List (List Char)`; the
filesystem that `find_module_roots` walks is modelled by an explicit record of
query functions (`FS`).  Fallible Python code (raising `ValueError` /
`AssertionError`) is modelled with `Except PyError`.
-/

/-- Python `str` modelled as a list of code points. -/
abbrev PyStr := List Char

/-- Convenience: turn a Lean string literal into the `PyStr` model. -/
def lc (s : String) : PyStr := s.toList

/-- Errors raised by the embedded code: Python `ValueError` and
`AssertionError`. -/
inductive PyError where
  | valueError (msg : String) : PyError
  | assertionError (msg : String) : PyError
deriving DecidableEq, Repr

/-- Decidable equality for `Except` results, so concrete runs can be settled
by `decide`. -/
instance {ε α : Type} [DecidableEq ε] [DecidableEq α] :
    DecidableEq (Except ε α) := fun a b =>
  match a, b with
  | Except.error e, Except.error f =>
    if h : e = f then isTrue (by rw [h])
    else isFalse (fun hc => h (Except.error.inj hc))
  | Except.error _, Except.ok _ => isFalse (fun hc => Except.noConfusion hc)
  | Except.ok _, Except.error _ => isFalse (fun hc => Except.noConfusion hc)
  | Except.ok x, Except.ok y =>
    if h : x = y then isTrue (by rw [h])
    else isFalse (fun hc => h (Except.ok.inj hc))

/-- Python `s.rstrip("/")`: drop every trailing `'/'`. -/
def pyRStripSlash (s : PyStr) : PyStr :=
  (s.reverse.dropWhile (fun c => c == '/')).reverse

/-- Python `s.strip()`: drop leading and trailing whitespace. -/
def pyStrip (s : PyStr) : PyStr :=
  ((s.dropWhile Char.isWhitespace).reverse.dropWhile Char.isWhitespace).reverse

/-- Python `s.split(sep)` for a one-character separator: splits at every
occurrence of `sep`, keeping empty pieces (so `"".split("/") = [""]` and
`"a//b".split("/") = ["a", "", "b"]`). -/
def pySplitChar (sep : Char) : PyStr → List PyStr
  | [] => [[]]
  | c :: rest =>
    let r := pySplitChar sep rest
    if c == sep then [] :: r
    else
      match r with
      | [] => [[c]]
      | h :: t => (c :: h) :: t

/-- Items of an `fnmatch` bracket expression `[...]`: a literal character or a
character range `lo-hi`. -/
inductive ClassItem where
  | lit (c : Char) : ClassItem
  | range (lo hi : Char) : ClassItem
deriving DecidableEq, Repr

/-- Tokens of a translated `fnmatch` pattern, mirroring what
`fnmatch.translate` produces: `*` (any run), `?` (any one char), a bracket
class, or a literal character. -/
inductive GlobTok where
  | star : GlobTok
  | any : GlobTok
  | cls (negated : Bool) (items : List ClassItem) : GlobTok
  | lit (c : Char) : GlobTok
deriving DecidableEq, Repr

/-- Index of the first `']'` in the list, if any. -/
def findRBracket : List Char → Option Nat
  | [] => none
  | c :: rest =>
    if c == ']' then some 0
    else (findRBracket rest).map (fun n => n + 1)

/-- Parse a bracket expression.  `p` is the text just after the opening `'['`.
Returns `(negated, content, consumed)` where `content` is the class body (the
characters strictly between the brackets, minus a leading `'!'`) and
`consumed` is how many characters of `p` the whole expression uses (closing
`']'` included).  `none` when there is no closing `']'`, in which case
`fnmatch` treats the `'['` as a literal.  This mirrors `fnmatch.translate`:
a leading `'!'` negates, and a `']'` right after `'['` (or after `'[!'`) is
literal. -/
def parseBracket (p : List Char) : Option (Bool × List Char × Nat) :=
  let neg : Bool := match p with
    | '!' :: _ => true
    | _ => false
  let off : Nat := if neg then 1 else 0
  let p1 := p.drop off
  let skip : Nat := match p1 with
    | ']' :: _ => 1
    | _ => 0
  match findRBracket (p1.drop skip) with
  | none => none
  | some j => some (neg, p1.take (skip + j), off + skip + j + 1)

/-- Parse a bracket-class body into its items.  A `'-'` with a character on
both sides forms a range; a leading or trailing `'-'` is a literal. -/
def parseClassItems : List Char → List ClassItem
  | c1 :: '-' :: c2 :: rest => ClassItem.range c1 c2 :: parseClassItems rest
  | c :: rest => ClassItem.lit c :: parseClassItems rest
  | [] => []

/-- Translate an `fnmatch` pattern into tokens, structurally recursing on a
fuel counter so the kernel can evaluate it.  Every step consumes at least one
character, so fuel `length + 1` (supplied by `translateGlob`) never runs
out and the zero-fuel default is unreachable. -/
def translateGlobF : Nat → List Char → List GlobTok
  | 0, _ => []
  | _ + 1, [] => []
  | f + 1, '*' :: p => GlobTok.star :: translateGlobF f p
  | f + 1, '?' :: p => GlobTok.any :: translateGlobF f p
  | f + 1, '[' :: p =>
    match parseBracket p with
    | none => GlobTok.lit '[' :: translateGlobF f p
    | some (neg, content, n) =>
      GlobTok.cls neg (parseClassItems content) :: translateGlobF f (p.drop n)
  | f + 1, c :: p => GlobTok.lit c :: translateGlobF f p

/-- The embedding of `fnmatch.translate`: `*` and `?` are special only
outside brackets, an unterminated `[` is a literal. -/
def translateGlob (p : List Char) : List GlobTok :=
  translateGlobF (p.length + 1) p

/-- Does one class item accept the character? -/
def classItemMatch (c : Char) : ClassItem → Bool
  | ClassItem.lit d => c == d
  | ClassItem.range lo hi => decide (lo ≤ c) && decide (c ≤ hi)

/-- Does the (possibly negated) bracket class accept the character? -/
def classTest (negated : Bool) (items : List ClassItem) (c : Char) : Bool :=
  let m := items.any (classItemMatch c)
  if negated then !m else m

/-- Token-against-string matching with a structural fuel counter.  Every
recursive call shrinks `p.length + s.length`, so fuel
`p.length + s.length + 1` (supplied by `tokMatch`) never runs out and the
zero-fuel default is unreachable. -/
def tokMatchF : Nat → List GlobTok → List Char → Bool
  | 0, _, _ => false
  | _ + 1, [], [] => true
  | _ + 1, [], _ :: _ => false
  | f + 1, GlobTok.star :: p, s =>
    tokMatchF f p s ||
      (match s with
       | [] => false
       | _ :: s' => tokMatchF f (GlobTok.star :: p) s')
  | _ + 1, GlobTok.any :: _, [] => false
  | f + 1, GlobTok.any :: p, _ :: s => tokMatchF f p s
  | _ + 1, GlobTok.cls _ _ :: _, [] => false
  | f + 1, GlobTok.cls neg items :: p, d :: s =>
    classTest neg items d && tokMatchF f p s
  | _ + 1, GlobTok.lit _ :: _, [] => false
  | f + 1, GlobTok.lit c :: p, d :: s => (c == d) && tokMatchF f p s

/-- Match translated tokens against a whole string (the regex produced by
`fnmatch.translate` is matched against the full name). -/
def tokMatch (p : List GlobTok) (s : List Char) : Bool :=
  tokMatchF (p.length + s.length + 1) p s

/-- Embedding of `fnmatch.fnmatch(name, pat)` (on POSIX `os.path.normcase` is
the identity, so this is `fnmatchcase`). -/
def fnmatch (name pat : PyStr) : Bool :=
  tokMatch (translateGlob pat) name

/-- Embedding of `pathlib.PurePath` as far as the matcher needs it: the
`parts` tuple and whether the path is absolute. -/
structure PurePath where
  absolute : Bool
  parts : List PyStr
deriving DecidableEq, Repr

/-- Embedding of the compiled `RelPathPattern` (its instance attributes). -/
structure RelPathPattern where
  pattern : PyStr
  terms : List PyStr
  anchored : Bool
  negate : Bool
  dirOnly : Bool
deriving DecidableEq, Repr

/-- First stage of `RelPathPattern.__init__`: a leading `'!'` sets `negate`
and is stripped; a leading `"\!"` is unescaped to `'!'` (one character is
dropped) without setting `negate`.  Returns `(negate, remaining text)`. -/
def parseNegation (pattern : PyStr) : Bool × PyStr :=
  if (lc "!").isPrefixOf pattern then (true, pattern.drop 1)
  else if (lc "\\!").isPrefixOf pattern then (false, pattern.drop 1)
  else (false, pattern)

/-- Second stage of `RelPathPattern.__init__`: a trailing `'/'` sets
`dir_only` and every trailing `'/'` is stripped (`str.rstrip`). -/
def parseDirOnly (p1 : PyStr) : Bool × PyStr :=
  if (lc "/").isSuffixOf p1 then (true, pyRStripSlash p1) else (false, p1)

/-- The `/`-separated non-empty segments of the processed pattern text (the
terms recorded by `RelPathPattern.__init__`). -/
def segmentsOf (p2 : PyStr) : List PyStr :=
  (pySplitChar '/' p2).filter (fun t => !t.isEmpty)

/-- Embedding of `RelPathPattern.__init__`.  Mirrors the source order:
negation handling, then trailing-slash handling, then the `anchored` test on
the remaining text, then splitting into terms; raises `ValueError` when no
non-empty term remains. -/
def RelPathPattern.compile (pattern : PyStr) : Except PyError RelPathPattern :=
  let np := parseNegation pattern
  let dp := parseDirOnly np.2
  let anchored := dp.2.contains '/'
  let terms := segmentsOf dp.2
  if terms.isEmpty then
    Except.error (PyError.valueError "must provide pattern with terms")
  else
    Except.ok (RelPathPattern.mk pattern terms anchored np.1 dp.1)

/-- Embedding of `RelPathPattern._is_match` (the recursive walk over
`(term_index, part_index)`).  `terms` and `dirOnly` are the pattern's
attributes read by the walk; `rel_to` models the optional base directory:
when present it is the oracle answering the
`Path(rel_to, *rel_path.parts[:part_index]).is_dir()` check. -/
def is_match_walkF (terms : List PyStr) (dirOnly : Bool)
    (rel_to : Option (List PyStr → Bool)) (parts : List PyStr) :
    Nat → Bool → Nat → Nat → Bool
  | 0, _, _, _ => false
  | f + 1, anchored, term_index, part_index =>
    if terms.length ≤ term_index then
      match rel_to with
      | some isDirAt => if dirOnly then isDirAt (parts.take part_index) else true
      | none => true
    else if parts.length ≤ part_index then false
    else
      let file_pattern := terms.getD term_index []
      if file_pattern == lc "**" then
        is_match_walkF terms dirOnly rel_to parts f false (term_index + 1) part_index
      else if fnmatch (parts.getD part_index []) file_pattern then
        is_match_walkF terms dirOnly rel_to parts f true (term_index + 1) (part_index + 1)
      else if anchored then false
      else
        is_match_walkF terms dirOnly rel_to parts f false term_index (part_index + 1)

/-- The recursive walk over `(term_index, part_index)`, entered with the fuel
that is always sufficient: every recursive call decreases
`(terms.length - term_index) + (parts.length - part_index)`, which starts
below the supplied fuel, so the zero-fuel default is unreachable. -/
def is_match_walk (terms : List PyStr) (dirOnly : Bool)
    (rel_to : Option (List PyStr → Bool)) (parts : List PyStr)
    (anchored : Bool) (term_index part_index : Nat) : Bool :=
  is_match_walkF terms dirOnly rel_to parts
    ((terms.length - term_index) + (parts.length - part_index) + 1)
    anchored term_index part_index

/-- Embedding of `RelPathPattern.is_match`: raises `ValueError` on an
absolute path, otherwise runs the recursive walk starting from the pattern's
own `anchored` flag and finally applies `negate`. -/
def RelPathPattern.is_match (p : RelPathPattern) (rel_path : PurePath)
    (rel_to : Option (List PyStr → Bool)) : Except PyError Bool :=
  if rel_path.absolute then
    Except.error (PyError.valueError "only matches relative paths")
  else
    let result := is_match_walk p.terms p.dirOnly rel_to rel_path.parts p.anchored 0 0
    Except.ok (if p.negate then !result else result)

/-- Compile a pattern and match it against a relative path with no base
directory; `none` when either step raises. -/
def matchesOn (pat : PyStr) (parts : List PyStr) : Option Bool :=
  match RelPathPattern.compile pat with
  | Except.error _ => none
  | Except.ok r =>
    match r.is_match (PurePath.mk false parts) none with
    | Except.error _ => none
    | Except.ok b => some b

/-- Embedding of `root_reducer(is_descendant)(roots, item)`.  The Python body
collects every existing root that is a descendant of `item` in `to_rm` and
then removes each by value, unless some root already covers `item`, in which
case it returns `roots` unchanged before mutating.  Since membership in
`to_rm` is decided per element by value, removing them all is the same as
filtering them out. -/
def root_reducer {T : Type} (is_descendant : T → T → Bool)
    (roots : List T) (item : T) : List T :=
  if roots.any (fun root => is_descendant item root) then roots
  else (roots.filter (fun root => !(is_descendant root item))) ++ [item]

/-- Embedding of `FoundModule`.  Absolute paths are modelled by their parts
(the resolved search directory's parts followed by the relative parts). -/
structure FoundModule where
  path : List PyStr
  rel_path : List PyStr
  search_dir : PyStr
deriving DecidableEq, Repr

/-- Embedding of `FoundModule.is_descendant_of`: `other.path in
self.path.parents`, i.e. `other`'s path is a strict ancestor (proper parts
prefix) of `self`'s. -/
def FoundModule.is_descendant_of (m other : FoundModule) : Bool :=
  other.path.isPrefixOf m.path && !(other.path == m.path)

/-- Python `pathlib` suffix position for a file name: the index of the last
`'.'` when `0 < i < len(name) - 1`, else none (no suffix). -/
def suffixStart (name : PyStr) : Option Nat :=
  match (name.reverse.findIdx? (fun c => c == '.')).map
      (fun j => name.length - 1 - j) with
  | none => none
  | some i => if 0 < i ∧ i + 1 < name.length then some i else none

/-- Python `PurePath.with_suffix("")` applied to a final path component:
drops the suffix when there is one. -/
def withSuffixEmpty (name : PyStr) : PyStr :=
  match suffixStart name with
  | none => name
  | some i => name.take i

/-- Embedding of the `FoundModule.name` property:
`".".join(rel_path.with_suffix("").parts)`. -/
def FoundModule.name (m : FoundModule) : PyStr :=
  match m.rel_path with
  | [] => []
  | parts => List.intercalate (lc ".")
      (parts.dropLast ++ [withSuffixEmpty (parts.getLastD [])])

/-- The plain `pkgutil`-extend namespace boilerplate line. -/
def pkgutilTemplate : PyStr :=
  lc "__path__ = __import__('pkgutil').extend_path(__path__, __name__)"

/-- The plain `pkg_resources`-declare namespace boilerplate line. -/
def pkgResourcesTemplate : PyStr :=
  lc "__import__('pkg_resources').declare_namespace(__name__)"

/-- The try/except hybrid boilerplate, exactly as the source stores it: the
result of `textwrap.dedent` on the triple-quoted literal.  `dedent` strips
the common 12-space margin and empties the whitespace-only final line, but
keeps the leading newline (after the opening quotes) and the trailing
newline, so this string starts and ends with `'\n'`. -/
def hybridTemplate : PyStr :=
  lc "\ntry:\n    __import__('pkg_resources').declare_namespace(__name__)\nexcept ImportError:\n    __path__ = __import__('pkgutil').extend_path(__path__, __name__)\n"

/-- Embedding of `NAMESPACE_INIT_CONTENTS` (a `frozenset`, modelled as a
list; only membership is used). -/
def NAMESPACE_INIT_CONTENTS : List PyStr :=
  [pkgutilTemplate, pkgResourcesTemplate, hybridTemplate]

/-- The filesystem as `find_module_roots` observes it, relative to one search
directory: whether the search directory exists and is a directory, its
resolved absolute parts, the relative parts of every `**/*.py` glob hit in
traversal order, and per-relative-path file/content/directory queries. -/
structure FS where
  pathExists : Bool
  isDir : Bool
  searchAbs : List PyStr
  pyFiles : List (List PyStr)
  isFileAt : List PyStr → Bool
  contentAt : List PyStr → PyStr
  isDirAt : List PyStr → Bool

/-- Embedding of `is_namespace_init(path)` for the file at relative path
`rel`: the name must be `__init__.py` and the stripped content must be one of
the `NAMESPACE_INIT_CONTENTS` templates. -/
def is_namespace_init (fs : FS) (rel : List PyStr) : Bool :=
  rel.getLastD [] == lc "__init__.py" &&
    NAMESPACE_INIT_CONTENTS.contains (pyStrip (fs.contentAt rel))

/-- Embedding of the local `is_excluded(path)`: some compiled pattern matches
the relative path, with the resolved search dir as `rel_to` base.  The paths
handed over are always relative, so `is_match` cannot raise here; the error
branch is dead. -/
def is_excluded (fs : FS) (exclude_patterns : List RelPathPattern)
    (rel : List PyStr) : Bool :=
  exclude_patterns.any (fun pt =>
    match pt.is_match (PurePath.mk false rel) (some fs.isDirAt) with
    | Except.ok b => b
    | Except.error _ => false)

/-- One iteration of the `for path in search_abs_path.glob("**/*.py")` loop
body: apply the filters in source order and append the surviving candidate
(directory-ized for `__init__.py` files). -/
def collectModule (fs : FS) (search_dir : PyStr)
    (exclude_patterns : List RelPathPattern)
    (acc : List FoundModule) (rel : List PyStr) : List FoundModule :=
  if !(fs.isFileAt rel) then acc
  else if rel == [lc "__init__.py"] then acc
  else if rel.dropLast.any (fun part => part.contains '.') then acc
  else if is_namespace_init fs rel then acc
  else if is_excluded fs exclude_patterns rel then acc
  else if rel.getLastD [] == lc "__init__.py" then
    acc ++ [FoundModule.mk (fs.searchAbs ++ rel.dropLast) rel.dropLast search_dir]
  else
    acc ++ [FoundModule.mk (fs.searchAbs ++ rel) rel search_dir]

/-- Embedding of `find_module_roots(search_dir, exclude)`.  Mirrors the
source order: nonexistent search dir short-circuits to `[]`; the exclude
patterns are compiled (a bad pattern raises `ValueError`) before the
`assert search_abs_path.is_dir()`; then the glob results are filtered and
reduced by `root_reducer`. -/
def find_module_roots (fs : FS) (search_dir : PyStr) (exclude : List PyStr) :
    Except PyError (List FoundModule) :=
  if !fs.pathExists then Except.ok []
  else
    match exclude.mapM RelPathPattern.compile with
    | Except.error e => Except.error e
    | Except.ok exclude_patterns =>
      if !fs.isDir then
        Except.error (PyError.assertionError "search_dir must be a directory")
      else
        let found_modules :=
          fs.pyFiles.foldl (collectModule fs search_dir exclude_patterns) []
        Except.ok
          (found_modules.foldl (root_reducer FoundModule.is_descendant_of) [])

/-- Embedding of the module-level `EXCLUDE_PATTERNS` default list. -/
def EXCLUDE_PATTERNS : List PyStr :=
  [ lc "__pycache__/",
    lc "/build/",
    lc "/develop-eggs/",
    lc "/dist/",
    lc "/downloads/",
    lc "/eggs/",
    lc "/.eggs/",
    lc "/lib/",
    lc "/lib64/",
    lc "/parts/",
    lc "/sdist/",
    lc "/var/",
    lc "/wheels/",
    lc "/pip-wheel-metadata/",
    lc "/share/python-wheels/",
    lc "/*.egg-info/",
    lc ".env/",
    lc ".venv/",
    lc "env/",
    lc "venv/",
    lc "ENV/",
    lc "env.bak/",
    lc "venv.bak/",
    lc ".vscode/",
    lc "/docs/",
    lc "/test/",
    lc "/tests/" ]

/-- The descendant relation the test suite folds `root_reducer` over:
`other in path.parents`, i.e. a proper parts prefix. -/
def path_is_descendant (p q : List PyStr) : Bool :=
  q.isPrefixOf p && !(q == p)

/-- A search directory holding exactly `pkg/__init__.py` whose content is
byte-for-byte the stored try/except hybrid template. -/
def hybridFS : FS :=
  FS.mk true true [lc "root"] [[lc "pkg", lc "__init__.py"]]
    (fun _ => true) (fun _ => hybridTemplate) (fun _ => true)

/-- A search directory holding exactly `pkg/__init__.py` whose content is the
plain `pkgutil`-extend boilerplate line. -/
def pkgutilFS : FS :=
  FS.mk true true [lc "root"] [[lc "pkg", lc "__init__.py"]]
    (fun _ => true) (fun _ => pkgutilTemplate) (fun _ => true)

/-- A search directory holding exactly `ns/sub/__init__.py` with unremarkable
content (`ns` itself has no `__init__.py`). -/
def nsFS : FS :=
  FS.mk true true [lc "base"] [[lc "ns", lc "sub", lc "__init__.py"]]
    (fun _ => true) (fun _ => lc "import this") (fun _ => true)

/-- A minimal existing, empty search directory. -/
def trivialFS : FS :=
  FS.mk true true [] [] (fun _ => false) (fun _ => []) (fun _ => false)

/-- A filesystem whose search directory does not exist. -/
def missingFS : FS :=
  FS.mk false false [] [] (fun _ => false) (fun _ => []) (fun _ => false)

/-- A filesystem whose search path exists but is a regular file, not a
directory. -/
def fileNotDirFS : FS :=
  FS.mk true false [] [] (fun _ => false) (fun _ => []) (fun _ => false)

/-- The head of `dropWhile p` fails `p`. -/
theorem dropWhile_head_false (p : Char → Bool) (l : List Char) :
    ∀ (c : Char) (rest : List Char), l.dropWhile p = c :: rest → p c = false := by
  induction l with
  | nil => intro c rest h; simp [List.dropWhile] at h
  | cons a t ih =>
    intro c rest h
    rw [List.dropWhile_cons] at h
    by_cases hp : p a = true
    · rw [if_pos hp] at h
      exact ih c rest h
    · rw [if_neg hp] at h
      injection h with h1 h2
      subst h1
      simpa using hp

/-- The first character of a stripped string is never whitespace. -/
theorem pyStrip_head_false (s : PyStr) (c : Char) (rest : List Char)
    (h : pyStrip s = c :: rest) : c.isWhitespace = false := by
  unfold pyStrip at h
  have hpre : List.IsPrefix
      ((s.dropWhile Char.isWhitespace).reverse.dropWhile Char.isWhitespace).reverse
      (s.dropWhile Char.isWhitespace) := by
    rw [← List.reverse_suffix, List.reverse_reverse]
    exact List.dropWhile_suffix _
  rw [h] at hpre
  obtain ⟨k, hk⟩ := hpre
  exact dropWhile_head_false Char.isWhitespace s c (rest ++ k)
    (by rw [← hk]; simp)

/-- The attributes a successful `RelPathPattern` compilation records, in
terms of the parsing stages. -/
theorem compile_fields (pattern : PyStr) (r : RelPathPattern)
    (h : RelPathPattern.compile pattern = Except.ok r) :
    r.pattern = pattern ∧
    r.negate = (parseNegation pattern).1 ∧
    r.dirOnly = (parseDirOnly (parseNegation pattern).2).1 ∧
    r.anchored = (parseDirOnly (parseNegation pattern).2).2.contains '/' ∧
    r.terms = segmentsOf (parseDirOnly (parseNegation pattern).2).2 := by
  simp only [RelPathPattern.compile] at h
  split at h
  · exact absurd h (by simp)
  · injection h with h'
    subst h'
    exact ⟨rfl, rfl, rfl, rfl, rfl⟩

/-- Compilation fails exactly when no non-empty segment remains. -/
theorem compile_error_char (pattern : PyStr) :
    (RelPathPattern.compile pattern).toOption = none ↔
      segmentsOf (parseDirOnly (parseNegation pattern).2).2 = [] := by
  simp only [RelPathPattern.compile]
  split
  · simp_all [List.isEmpty_iff, Except.toOption]
  · simp_all [List.isEmpty_iff, Except.toOption]

/-- Compiling `'!' ++ P`, for `P` that starts with neither `'!'` nor `"\!"`,
gives the same pattern as compiling `P` except that `negate` is set (and the
recorded original text differs). -/
theorem compile_bang (P : PyStr)
    (h1 : (lc "!").isPrefixOf P = false)
    (h2 : (lc "\\!").isPrefixOf P = false) :
    RelPathPattern.compile ('!' :: P) =
      (RelPathPattern.compile P).map
        (fun r => RelPathPattern.mk ('!' :: P) r.terms r.anchored true r.dirOnly) := by
  have hp : parseNegation ('!' :: P) = (true, P) := by
    simp [parseNegation, lc, List.isPrefixOf]
  have hq : parseNegation P = (false, P) := by
    simp [parseNegation, h1, h2]
  by_cases hc : (segmentsOf (parseDirOnly P).2).isEmpty = true
  · simp [RelPathPattern.compile, hp, hq, hc, Except.map]
  · simp [RelPathPattern.compile, hp, hq, hc, Except.map]

/-- Negation inverts only the final verdict of `is_match`: a pattern with the
same terms, anchoring and dir-only flag but `negate` set returns the
pointwise boolean negation. -/
theorem is_match_negate (r : RelPathPattern) (pat2 : PyStr) (pp : PurePath)
    (rel_to : Option (List PyStr → Bool)) (hneg : r.negate = false) :
    (RelPathPattern.mk pat2 r.terms r.anchored true r.dirOnly).is_match pp rel_to =
      (r.is_match pp rel_to).map (fun b => !b) := by
  unfold RelPathPattern.is_match
  cases habs : pp.absolute
  · simp [habs, hneg, Except.map]
  · simp [habs, Except.map]

/-- One `root_reducer` step preserves pairwise incomparability. -/
theorem root_reducer_step {T : Type} (desc : T → T → Bool)
    (roots : List T) (item : T)
    (h : roots.Pairwise (fun a b => desc a b = false ∧ desc b a = false)) :
    (root_reducer desc roots item).Pairwise
      (fun a b => desc a b = false ∧ desc b a = false) := by
  unfold root_reducer
  by_cases hany : roots.any (fun root => desc item root) = true
  · simpa [hany] using h
  · have hnone : ∀ x ∈ roots, desc item x = false := by
      intro x hx
      by_contra hdx
      exact hany (List.any_eq_true.mpr ⟨x, hx, by simpa using hdx⟩)
    rw [if_neg hany]
    refine List.pairwise_append.mpr ⟨h.sublist (List.filter_sublist _),
      List.pairwise_singleton _ _, ?_⟩
    intro a ha b hb
    obtain ⟨haroots, hfa⟩ := List.mem_filter.mp ha
    obtain rfl := List.mem_singleton.mp hb
    exact ⟨by simpa using hfa, hnone a haroots⟩

/-- Folding `root_reducer` preserves pairwise incomparability of the
accumulator. -/
theorem root_reducer_fold {T : Type} (desc : T → T → Bool) (items : List T) :
    ∀ acc : List T,
      acc.Pairwise (fun a b => desc a b = false ∧ desc b a = false) →
      (items.foldl (root_reducer desc) acc).Pairwise
        (fun a b => desc a b = false ∧ desc b a = false) := by
  induction items with
  | nil => intro acc h; simpa using h
  | cons x xs ih =>
    intro acc h
    exact ih (root_reducer desc acc x) (root_reducer_step desc acc x h)

/-- C5: `is_match` implements unanchored matching for patterns without `/`
(pattern `"test"` matches `test/a/b`, `a/test/b` and `a/b/test`), prefix-only
matching for anchored patterns (`"/test"` matches `test/a/b` but not
`a/test/b`; `"test/a"` matches `test/a/b` but not `b/test/a`), and
zero-or-more segment skipping for `**` (`"**​/test/b"` matches `a/test/b/c`;
`"test/**​/c"` matches `test/a/b/c/d` and `test/c` but not `a/test/c`). -/
theorem is_match_spec_examples :
    matchesOn (lc "test") [lc "test", lc "a", lc "b"] = some true ∧
    matchesOn (lc "test") [lc "a", lc "test", lc "b"] = some true ∧
    matchesOn (lc "test") [lc "a", lc "b", lc "test"] = some true ∧
    matchesOn (lc "/test") [lc "test", lc "a", lc "b"] = some true ∧
    matchesOn (lc "/test") [lc "a", lc "test", lc "b"] = some false ∧
    matchesOn (lc "test/a") [lc "test", lc "a", lc "b"] = some true ∧
    matchesOn (lc "test/a") [lc "b", lc "test", lc "a"] = some false ∧
    matchesOn (lc "**/test/b") [lc "a", lc "test", lc "b", lc "c"] = some true ∧
    matchesOn (lc "test/**/c") [lc "test", lc "a", lc "b", lc "c", lc "d"] = some true ∧
    matchesOn (lc "test/**/c") [lc "test", lc "c"] = some true ∧
    matchesOn (lc "test/**/c") [lc "a", lc "test", lc "c"] = some false := by
  decide

/-- C9: after a `**` term the matcher commits to the first path segment
matching the following term and never backtracks: `"**​/a/b"` rejects
`x/a/c/a/b` although the final two segments would align with `a/b`, while the
same pattern accepts `x/z/c/a/b`, where only that late alignment exists. -/
theorem double_star_no_backtracking :
    matchesOn (lc "**/a/b") [lc "x", lc "a", lc "c", lc "a", lc "b"] = some false ∧
    matchesOn (lc "**/a/b") [lc "x", lc "z", lc "c", lc "a", lc "b"] = some true := by
  decide

/-- C3 counterexample: the pattern text `"build/"` contains `'/'`, yet it
compiles with `anchored = false`, because the slash test happens after the
trailing slash has been stripped. -/
theorem anchored_trailing_slash_cex :
    (RelPathPattern.compile (lc "build/")).toOption.map RelPathPattern.anchored =
      some false := by
  decide

/-- C3 amended: `anchored` is true exactly when the pattern text still
contains `'/'` after negation handling and trailing-slash stripping; a
pattern whose only slashes are trailing, such as `"build/"`, compiles
unanchored, while `"/build/"` compiles anchored. -/
theorem anchored_after_strip :
    (∀ (pattern : PyStr) (r : RelPathPattern),
        RelPathPattern.compile pattern = Except.ok r →
        r.anchored = (parseDirOnly (parseNegation pattern).2).2.contains '/') ∧
    (RelPathPattern.compile (lc "build/")).toOption.map RelPathPattern.anchored =
      some false ∧
    (RelPathPattern.compile (lc "/build/")).toOption.map RelPathPattern.anchored =
      some true := by
  refine ⟨?_, by decide, by decide⟩
  intro pattern r h
  exact (compile_fields pattern r h).2.2.2.1

/-- C3 amended, witnessed at the pattern `"a/b"`, whose post-strip text keeps
an interior slash. -/
theorem anchored_after_strip_witness :
    (RelPathPattern.mk (lc "a/b") [lc "a", lc "b"] true false false).anchored =
      (parseDirOnly (parseNegation (lc "a/b")).2).2.contains '/' :=
  anchored_after_strip.1 (lc "a/b") _ (by decide)

/-- C7: compilation fails exactly when the pattern text, after negation
handling and trailing-slash stripping, has no non-empty `/`-separated
segment (so the empty pattern, `"/"`, `"///"` and bare `"!"` all fail, and
any text with a surviving segment compiles); and `is_match` fails exactly on
absolute paths. -/
theorem compile_and_match_errors :
    (∀ pattern : PyStr,
        (RelPathPattern.compile pattern).toOption = none ↔
          segmentsOf (parseDirOnly (parseNegation pattern).2).2 = []) ∧
    (RelPathPattern.compile (lc "")).toOption = none ∧
    (RelPathPattern.compile (lc "/")).toOption = none ∧
    (RelPathPattern.compile (lc "///")).toOption = none ∧
    (RelPathPattern.compile (lc "!")).toOption = none ∧
    (∀ (r : RelPathPattern) (pp : PurePath) (rel_to : Option (List PyStr → Bool)),
        (r.is_match pp rel_to).toOption = none ↔ pp.absolute = true) := by
  refine ⟨compile_error_char, by decide, by decide, by decide, by decide, ?_⟩
  intro r pp rel_to
  unfold RelPathPattern.is_match
  cases habs : pp.absolute <;> simp [habs, Except.toOption]

/-- C6 counterexample: for `P = "\!test"` (which does not start with `'!'`),
the pattern `"!" ++ P` does not return the negation of what `P` returns: on
the path `!test` both compiled patterns return `true`. -/
theorem bang_escape_cex :
    (lc "!").isPrefixOf (lc "\\!test") = false ∧
    matchesOn (lc "!" ++ lc "\\!test") [lc "!test"] = some true ∧
    matchesOn (lc "\\!test") [lc "!test"] = some true ∧
    (matchesOn (lc "!" ++ lc "\\!test") [lc "!test"] ==
      (matchesOn (lc "\\!test") [lc "!test"]).map (fun b => !b)) = false := by
  decide

/-- C6 amended: for every pattern text `P` starting with neither `'!'` nor
`"\!"`, the pattern compiled from `'!' ++ P` is negated and returns on every
relative path exactly the boolean negation of what the pattern compiled from
`P` returns (negation inverts only the final verdict); a pattern starting
with `"\!"` is not negated and treats the `'!'` as a literal (`"!test"`
matches `a/b/c` but not `a/test/b/c`, `"\!test"` matches `a/!test/b`). -/
theorem bang_negation_amended (P : PyStr) (r r' : RelPathPattern)
    (parts : List PyStr) (rel_to : Option (List PyStr → Bool))
    (h1 : (lc "!").isPrefixOf P = false)
    (h2 : (lc "\\!").isPrefixOf P = false)
    (hP : RelPathPattern.compile P = Except.ok r)
    (hN : RelPathPattern.compile ('!' :: P) = Except.ok r') :
    r'.negate = true ∧
    r'.is_match (PurePath.mk false parts) rel_to =
      (r.is_match (PurePath.mk false parts) rel_to).map (fun b => !b) ∧
    matchesOn (lc "!test") [lc "a", lc "b", lc "c"] = some true ∧
    matchesOn (lc "!test") [lc "a", lc "test", lc "b", lc "c"] = some false ∧
    matchesOn (lc "\\!test") [lc "a", lc "!test", lc "b"] = some true := by
  have hb := compile_bang P h1 h2
  rw [hP] at hb
  simp only [Except.map] at hb
  rw [hN] at hb
  have hr' : r' = RelPathPattern.mk ('!' :: P) r.terms r.anchored true r.dirOnly := by
    simpa using hb
  subst hr'
  have hneg : r.negate = false := by
    have h3 := (compile_fields P r hP).2.1
    rw [h3]
    simp [parseNegation, h1, h2]
  exact ⟨rfl, is_match_negate r ('!' :: P) (PurePath.mk false parts) rel_to hneg,
    by decide, by decide, by decide⟩

/-- C6 amended, witnessed at `P = "test"`, path `a/test`. -/
theorem bang_negation_amended_witness :
    (RelPathPattern.mk ('!' :: lc "test") [lc "test"] false true false).negate
      = true ∧
    (RelPathPattern.mk ('!' :: lc "test") [lc "test"] false true false).is_match
        (PurePath.mk false [lc "a", lc "test"]) none =
      ((RelPathPattern.mk (lc "test") [lc "test"] false false false).is_match
        (PurePath.mk false [lc "a", lc "test"]) none).map (fun b => !b) :=
  ⟨(bang_negation_amended (lc "test")
      (RelPathPattern.mk (lc "test") [lc "test"] false false false)
      (RelPathPattern.mk ('!' :: lc "test") [lc "test"] false true false)
      [lc "a", lc "test"] none
      (by decide) (by decide) (by decide) (by decide)).1,
   (bang_negation_amended (lc "test")
      (RelPathPattern.mk (lc "test") [lc "test"] false false false)
      (RelPathPattern.mk ('!' :: lc "test") [lc "test"] false true false)
      [lc "a", lc "test"] none
      (by decide) (by decide) (by decide) (by decide)).2.1⟩

/-- C4: for every strict-partial-order descendant predicate, folding
`root_reducer` over any input from the empty accumulator yields an antichain:
no element of the result is a descendant of another. -/
theorem root_reducer_antichain {T : Type} (desc : T → T → Bool)
    (hirr : ∀ a, desc a a = false)
    (htrans : ∀ a b c, desc a b = true → desc b c = true → desc a c = true)
    (items : List T) :
    (items.foldl (root_reducer desc) []).Pairwise
      (fun a b => desc a b = false ∧ desc b a = false) :=
  root_reducer_fold desc items [] List.Pairwise.nil

/-- C4 witnessed on concrete paths: `[a, a/b, a/b/c, a/b/d]` reduces to `[a]`
and `[a/b, a/b/c, a/b/d/e, x/y, x/y/z, x/y/w]` reduces to `[a/b, x/y]`, an
antichain under the path-descendant relation. -/
theorem root_reducer_antichain_witness :
    ([[lc "a"], [lc "a", lc "b"], [lc "a", lc "b", lc "c"],
        [lc "a", lc "b", lc "d"]].foldl (root_reducer path_is_descendant) []
      = [[lc "a"]]) ∧
    ([[lc "a", lc "b"], [lc "a", lc "b", lc "c"],
        [lc "a", lc "b", lc "d", lc "e"], [lc "x", lc "y"],
        [lc "x", lc "y", lc "z"], [lc "x", lc "y", lc "w"]].foldl
        (root_reducer path_is_descendant) []
      = [[lc "a", lc "b"], [lc "x", lc "y"]]) ∧
    ([[lc "a", lc "b"], [lc "a", lc "b", lc "c"],
        [lc "a", lc "b", lc "d", lc "e"], [lc "x", lc "y"],
        [lc "x", lc "y", lc "z"], [lc "x", lc "y", lc "w"]].foldl
        (root_reducer path_is_descendant) []).Pairwise
      (fun a b => path_is_descendant a b = false ∧ path_is_descendant b a = false) :=
  ⟨by decide, by decide,
    root_reducer_antichain path_is_descendant
      (fun a => by simp [path_is_descendant])
      (fun a b c hab hbc => by
        simp only [path_is_descendant, Bool.and_eq_true, Bool.not_eq_true'] at hab hbc ⊢
        obtain ⟨hab1, hab2⟩ := hab
        obtain ⟨hbc1, hbc2⟩ := hbc
        have pba := List.isPrefixOf_iff_prefix.mp hab1
        have pcb := List.isPrefixOf_iff_prefix.mp hbc1
        refine ⟨List.isPrefixOf_iff_prefix.mpr (pcb.trans pba), ?_⟩
        rw [beq_eq_false_iff_ne] at hbc2 ⊢
        intro hca
        subst hca
        exact hbc2 (pcb.eq_of_length (Nat.le_antisymm pcb.length_le pba.length_le)))
      _⟩

/-- With an existing directory and no exclude patterns, `find_module_roots`
is the two-stage fold over the glob results. -/
theorem find_module_roots_eval (fs : FS) (sd : PyStr)
    (hex : fs.pathExists = true) (hdir : fs.isDir = true) :
    find_module_roots fs sd [] = Except.ok
      ((fs.pyFiles.foldl (collectModule fs sd []) []).foldl
        (root_reducer FoundModule.is_descendant_of) []) := by
  unfold find_module_roots
  rw [hex, hdir]
  rfl

/-- A candidate is excluded once any one pattern in the list matches it. -/
theorem is_excluded_of_match (fs : FS) (pts : List RelPathPattern)
    (rel : List PyStr) (pt : RelPathPattern) (hmem : pt ∈ pts)
    (hmatch : pt.is_match (PurePath.mk false rel) (some fs.isDirAt) =
      Except.ok true) :
    is_excluded fs pts rel = true := by
  unfold is_excluded
  refine List.any_eq_true.mpr ⟨pt, hmem, ?_⟩
  rw [hmatch]

/-- C1 (evaluating the code at the failing input): the stored try/except
hybrid template begins and ends with a newline, so no stripped file content
ever equals it and `is_namespace_init` never recognizes the hybrid
boilerplate; concretely, a `pkg/__init__.py` holding exactly the stored
hybrid template is not discarded but returned as a module root, while the
single-line `pkgutil` template is recognized. -/
theorem hybrid_template_never_matches :
    (∀ content : PyStr, (pyStrip content == hybridTemplate) = false) ∧
    is_namespace_init hybridFS [lc "pkg", lc "__init__.py"] = false ∧
    find_module_roots hybridFS (lc ".") [] =
      Except.ok [FoundModule.mk [lc "root", lc "pkg"] [lc "pkg"] (lc ".")] ∧
    is_namespace_init pkgutilFS [lc "pkg", lc "__init__.py"] = true := by
  refine ⟨?_, by decide, by decide, by decide⟩
  intro content
  cases h : pyStrip content == hybridTemplate
  · rfl
  · exfalso
    have heq : pyStrip content = hybridTemplate := by
      exact beq_iff_eq.mp h
    have h2 : pyStrip content = '\n' :: hybridTemplate.drop 1 := by
      rw [heq]
      rfl
    have h3 := pyStrip_head_false content '\n' (hybridTemplate.drop 1) h2
    exact absurd h3 (by decide)

/-- C2: over the hierarchy `ns/sub/__init__.py` where `ns` itself has no
`__init__.py`, the init file not being a namespace marker and nothing being
excluded, `find_module_roots` returns exactly one `FoundModule`, for the
directory `ns/sub`, whose import name is `ns.sub`. -/
theorem namespace_hierarchy_single_root (fs : FS) (sd : PyStr)
    (hex : fs.pathExists = true) (hdir : fs.isDir = true)
    (hfiles : fs.pyFiles = [[lc "ns", lc "sub", lc "__init__.py"]])
    (hfile : fs.isFileAt [lc "ns", lc "sub", lc "__init__.py"] = true)
    (hns : is_namespace_init fs [lc "ns", lc "sub", lc "__init__.py"] = false) :
    find_module_roots fs sd [] =
      Except.ok [FoundModule.mk (fs.searchAbs ++ [lc "ns", lc "sub"])
        [lc "ns", lc "sub"] sd] ∧
    (FoundModule.mk (fs.searchAbs ++ [lc "ns", lc "sub"]) [lc "ns", lc "sub"]
      sd).name = lc "ns.sub" := by
  constructor
  · have hone : collectModule fs sd [] [] [lc "ns", lc "sub", lc "__init__.py"] =
        [FoundModule.mk (fs.searchAbs ++ [lc "ns", lc "sub"])
          [lc "ns", lc "sub"] sd] := by
      unfold collectModule
      rw [hfile, hns]
      rfl
    rw [find_module_roots_eval fs sd hex hdir, hfiles, List.foldl_cons,
      List.foldl_nil, hone]
    rfl
  · rfl

/-- C2 witnessed on a concrete filesystem. -/
theorem namespace_hierarchy_single_root_witness :
    find_module_roots nsFS (lc "src") [] =
      Except.ok [FoundModule.mk (nsFS.searchAbs ++ [lc "ns", lc "sub"])
        [lc "ns", lc "sub"] (lc "src")] ∧
    (FoundModule.mk (nsFS.searchAbs ++ [lc "ns", lc "sub"]) [lc "ns", lc "sub"]
      (lc "src")).name = lc "ns.sub" :=
  namespace_hierarchy_single_root nsFS (lc "src") rfl rfl rfl rfl (by decide)

/-- C8: a nonexistent search dir yields an empty result without error, and a
search path that exists but is not a directory makes `find_module_roots`
(under the default exclude list) raise the assertion error, with no partial
result. -/
theorem search_dir_error_handling :
    (∀ (fs : FS) (sd : PyStr) (exclude : List PyStr),
        fs.pathExists = false →
        find_module_roots fs sd exclude = Except.ok []) ∧
    (∀ (fs : FS) (sd : PyStr),
        fs.pathExists = true → fs.isDir = false →
        find_module_roots fs sd EXCLUDE_PATTERNS =
          Except.error (PyError.assertionError
            "search_dir must be a directory")) := by
  constructor
  · intro fs sd exclude hex
    unfold find_module_roots
    rw [hex]
    rfl
  · intro fs sd hex hdir
    unfold find_module_roots
    rw [hex, hdir]
    obtain ⟨pats, hpats⟩ : ∃ pats,
        EXCLUDE_PATTERNS.mapM RelPathPattern.compile = Except.ok pats :=
      ⟨_, rfl⟩
    rw [hpats]
    rfl

/-- C8 witnessed on concrete filesystems. -/
theorem search_dir_error_handling_witness :
    find_module_roots missingFS (lc "gone") [] = Except.ok [] ∧
    find_module_roots fileNotDirFS (lc "afile") EXCLUDE_PATTERNS =
      Except.error (PyError.assertionError "search_dir must be a directory") :=
  ⟨search_dir_error_handling.1 missingFS (lc "gone") [] rfl,
   search_dir_error_handling.2 fileNotDirFS (lc "afile") rfl rfl⟩

/-- C10: a candidate is excluded as soon as any single compiled exclude
pattern matches it, with patterns tested independently (so no pattern ever
re-includes a path another pattern excluded); consequently a negated pattern
`'!' ++ P` in the exclude list excludes every path that the un-negated
pattern `P` does not match. -/
theorem exclude_any_pattern :
    (∀ (fs : FS) (pts : List RelPathPattern) (rel : List PyStr)
        (pt : RelPathPattern),
        pt ∈ pts →
        pt.is_match (PurePath.mk false rel) (some fs.isDirAt) = Except.ok true →
        is_excluded fs pts rel = true) ∧
    (∀ (fs : FS) (P : PyStr) (r r' : RelPathPattern)
        (pts : List RelPathPattern) (rel : List PyStr),
        (lc "!").isPrefixOf P = false →
        (lc "\\!").isPrefixOf P = false →
        RelPathPattern.compile P = Except.ok r →
        RelPathPattern.compile ('!' :: P) = Except.ok r' →
        r' ∈ pts →
        r.is_match (PurePath.mk false rel) (some fs.isDirAt) = Except.ok false →
        is_excluded fs pts rel = true) := by
  constructor
  · exact is_excluded_of_match
  · intro fs P r r' pts rel h1 h2 hP hN hmem hmiss
    have hb := compile_bang P h1 h2
    rw [hP] at hb
    simp only [Except.map] at hb
    rw [hN] at hb
    have hr' : r' = RelPathPattern.mk ('!' :: P) r.terms r.anchored true r.dirOnly := by
      simpa using hb
    have hneg : r.negate = false := by
      have h3 := (compile_fields P r hP).2.1
      rw [h3]
      simp [parseNegation, h1, h2]
    have hinv := is_match_negate r ('!' :: P) (PurePath.mk false rel)
      (some fs.isDirAt) hneg
    rw [hmiss] at hinv
    refine is_excluded_of_match fs pts rel r' hmem ?_
    rw [hr', hinv]
    rfl

/-- C10 witnessed: the negated pattern `"!test"` alone excludes the path `a`,
which `"test"` does not match. -/
theorem exclude_any_pattern_witness :
    is_excluded trivialFS
      [RelPathPattern.mk ('!' :: lc "test") [lc "test"] false true false]
      [lc "a"] = true :=
  exclude_any_pattern.2 trivialFS (lc "test")
    (RelPathPattern.mk (lc "test") [lc "test"] false false false)
    (RelPathPattern.mk ('!' :: lc "test") [lc "test"] false true false)
    [RelPathPattern.mk ('!' :: lc "test") [lc "test"] false true false]
    [lc "a"] (by decide) (by decide) (by decide) (by decide)
    (by simp) (by decide)
